import Mathlib

/-!
Shallow embedding of the AIS aggregation engine (pyais.py): per-topic
60-minute sliding window of (mmsi, timestamp) entries, a persistent
mmsi-to-name cache, a throttle tracker keyed by "mmsi_type" strings, and a
process-wide rate-limit timestamp for the external AISHub name lookup.
Time is modelled as integer seconds; Python dynamic values relevant to the
claims (identifiers that may be absent, integers or strings) are modelled
by an explicit value type with Python truthiness.
-/

/-- A Python value as it appears in the parsed JSON payload: null/absent,
an integer, or a string. -/
inductive JVal where
  | jnull : JVal
  | jint : Int → JVal
  | jstr : String → JVal
deriving DecidableEq, Repr

/-- Python truthiness of a `JVal` (`if not mmsi:` in `on_message`). -/
def truthyJ : JVal → Bool
  | .jnull => false
  | .jint n => n != 0
  | .jstr s => s != ""

/-- Python `str()` of a `JVal`, used for cache keys (`str(mmsi)`) and
throttle keys (f-string interpolation). -/
def pyStr : JVal → String
  | .jnull => "None"
  | .jint n => toString n
  | .jstr s => s

/-- Python truthiness of an optional string (`if name:`). -/
def truthyS : Option String → Bool
  | some s => s != ""
  | none => false

/-- Digit-sequence parser for `pyInt?`: consumes decimal digits,
failing on any non-digit. -/
def pyDigitsAux : List Char → Nat → Option Nat
  | [], acc => some acc
  | c :: cs, acc =>
      if c.isDigit then pyDigitsAux cs (acc * 10 + (c.toNat - 48)) else none

/-- Python `int(s)` on a string, as a fallible conversion: surrounding
whitespace is stripped, an optional sign is allowed, then one or more
decimal digits; `none` models `int()` raising `ValueError` (in particular
on the empty string). -/
def pyInt? (s : String) : Option Int :=
  let cs := (((s.data.dropWhile Char.isWhitespace).reverse.dropWhile
      Char.isWhitespace).reverse)
  match cs with
  | [] => none
  | '-' :: rest =>
      match rest with
      | [] => none
      | _ => (pyDigitsAux rest 0).map (fun n => -(n : Int))
  | '+' :: rest =>
      match rest with
      | [] => none
      | _ => (pyDigitsAux rest 0).map (fun n => (n : Int))
  | _ => (pyDigitsAux cs 0).map (fun n => (n : Int))

/-- `str(msg_type)` for the throttle key: `None` prints as "None". -/
def pyStrOptInt : Option Int → String
  | some n => toString n
  | none => "None"

/-- Association-list lookup, modelling Python `dict.get`. -/
def alookup {α : Type} : List (String × α) → String → Option α
  | [], _ => none
  | (k, v) :: rest, key => if k = key then some v else alookup rest key

/-- Association-list update, modelling Python `dict[key] = value`:
replaces the first binding of the key, or appends a new binding. -/
def aset {α : Type} : List (String × α) → String → α → List (String × α)
  | [], key, v => [(key, v)]
  | (k, w) :: rest, key, v =>
      if k = key then (k, v) :: rest else (k, w) :: aset rest key v

/-- A parsed inbound MQTT message: `data.get("mmsi")`, `data.get("shipname")`,
`data.get("name")`, `data.get("type")`, plus the topic it arrived on. -/
structure Msg where
  topic : String
  mmsi : JVal
  shipname : Option String
  name : Option String
  type : Option Int
deriving DecidableEq, Repr

/-- One entry of `MMSI_TYPE_THROTTLE`: rule["mmsi"], rule["type"], and
rule.get("throttleInterval", 30) (`none` means the key is absent, so the
default 30 applies). -/
structure Rule where
  mmsi : JVal
  type : Option Int
  interval : Option Int
deriving DecidableEq, Repr

/-- Engine configuration: the configured topic list, the raw `IGNORE_TYPES`
strings (before `int` conversion), and the throttle rules. -/
structure Config where
  topics : List String
  ignoreTypesRaw : List String
  rules : List Rule
deriving Repr

/-- Outcome of the AISHub HTTP exchange for one call, as the environment
provides it.  `netFail` models an exception raised before the response is
decoded (connection error, timeout, bad HTTP status, undecodable JSON body):
the code reaches line 101-103 but not line 106.  `parsed o` models a decoded
JSON response; `o` is the name the extraction logic (lines 109-120) yields
from it: `none` for an explicit ERROR field, a missing or falsy NAME, or a
malformed shape. -/
inductive AishubResult where
  | netFail : AishubResult
  | parsed : Option String → AishubResult
deriving DecidableEq, Repr

/-- Per-message environment: what the external AISHub call would return
were it issued while processing this message. -/
structure Env where
  aishub : AishubResult
deriving Repr

/-- Result of `fetch_name_from_aishub`: the returned name (if any), the new
value of the global `LAST_AISHUB_CALL`, and whether the HTTP request was
actually issued (line 101 reached, as opposed to the rate-limit skip). -/
structure FetchResult where
  name : Option String
  newLast : Int
  issued : Bool
deriving DecidableEq, Repr

/-- The payload posted to Home Assistant by `post_to_home_assistant`. -/
structure Publish where
  topic : String
  name : String
  mmsi : JVal
  vesselCount : Nat
deriving DecidableEq, Repr

/-- The mutable module-level state of pyais.py: `mmsi_data` (per-topic
window entries), `mmsi_name_lookup` (cache keyed by `str(mmsi)`),
`throttle_tracker`, and `LAST_AISHUB_CALL`.  `saves` counts calls to
`save_mmsi_data` and `issuedLog` records the times at which an AISHub HTTP
request was issued; both are observable effects (file write, HTTP request),
recorded so theorems can speak about them. -/
structure EngineState where
  mmsi_data : List (String × List (JVal × Int))
  mmsi_name_lookup : List (String × String)
  throttle_tracker : List (String × Int)
  lastCall : Int
  saves : Nat
  issuedLog : List Int
deriving Repr

/-- `fetch_name_from_aishub` (lines 86-125).  If less than
`AISHUB_RATE_LIMIT = 60` seconds have passed since `LAST_AISHUB_CALL`, the
call is skipped and `None` returned.  Otherwise the request is issued; the
timestamp is updated at line 106 only after the response is obtained and
its JSON body decoded, so a `netFail` leaves it unchanged. -/
def fetch_name_from_aishub (res : AishubResult) (lastCall now : Int) : FetchResult :=
  if now - lastCall < 60 then
    { name := none, newLast := lastCall, issued := false }
  else
    match res with
    | .netFail => { name := none, newLast := lastCall, issued := true }
    | .parsed o => { name := o, newLast := now, issued := true }

/-- Does a throttle rule match the message (`rule["mmsi"] == mmsi and
rule["type"] == msg_type`)? -/
def ruleMatches (r : Rule) (mmsi : JVal) (ty : Option Int) : Bool :=
  r.mmsi == mmsi && r.type == ty

/-- The tracker key f"{mmsi}_{msg_type}". -/
def throttleKey (mmsi : JVal) (ty : Option Int) : String :=
  pyStr mmsi ++ "_" ++ pyStrOptInt ty

/-- `should_process_message` (lines 310-326): walk the rule list; for each
matching rule check the shared tracker key, returning `False` immediately
(with the tracker as mutated so far) when the interval has not elapsed,
and otherwise stamping the key with `now` before moving on. -/
def should_process_message (rules : List Rule) (tracker : List (String × Int))
    (mmsi : JVal) (ty : Option Int) (now : Int) : Bool × List (String × Int) :=
  match rules with
  | [] => (true, tracker)
  | r :: rest =>
      if ruleMatches r mmsi ty then
        let key := throttleKey mmsi ty
        let interval := r.interval.getD 30
        let last := (alookup tracker key).getD 0
        if now - last < interval then (false, tracker)
        else should_process_message rest (aset tracker key now) mmsi ty now
      else should_process_message rest tracker mmsi ty now

/-- `set(map(int, IGNORE_TYPES))` (line 216): converts every raw string;
`none` models the `ValueError` raised by `int` on a non-numeric entry. -/
def parseIgnoreTypes (l : List String) : Option (List Int) := l.mapM pyInt?

/-- Result of the window-aggregator step of `on_message` (lines 266-285):
the new `mmsi_data`, whether `save_mmsi_data` was called by this step, and
the distinct-mmsi count. -/
structure RecordResult where
  data : List (String × List (JVal × Int))
  saved : Bool
  count : Nat
deriving Repr

/-- Number of distinct identifiers: `len({m for m, t in entries})`. -/
def distinctCount (entries : List (JVal × Int)) : Nat :=
  ((entries.map Prod.fst).eraseDups).length

/-- The window-aggregator step of `on_message` (lines 266-285): create the
topic's list if absent, append `(mmsi, now)`, rebuild the list keeping
entries with `t > now - 60min`, and call `save_mmsi_data` only when the
rebuilt list is shorter; finally count distinct identifiers. -/
def record (data : List (String × List (JVal × Int))) (topic : String)
    (mmsi : JVal) (now : Int) : RecordResult :=
  let entries := (alookup data topic).getD []
  let appended := entries ++ [(mmsi, now)]
  let cutoff := now - 3600
  let kept := appended.filter (fun e => cutoff < e.2)
  if kept.length ≠ appended.length then
    { data := aset data topic kept, saved := true, count := distinctCount kept }
  else
    { data := aset data topic appended, saved := false, count := distinctCount appended }

/-- The name-resolution chain of `on_message` (lines 232-258): shipname
takes precedence over name; with neither, consult the cache under
`str(mmsi)`; on a cache miss, call `fetch_name_from_aishub` (which may be
skipped by the rate limit); a truthy fetched name is cached at line 251
(with a `save_mmsi_data`) and a failed resolution yields "Unknown". -/
def resolve_name (env : Env) (st1 : EngineState) (msg : Msg) (now : Int) :
    String × EngineState :=
  if truthyS msg.shipname && truthyS msg.name then
    ((msg.shipname.getD ""), st1)
  else if !truthyS msg.name && truthyS msg.shipname then
    ((msg.shipname.getD ""), st1)
  else if !truthyS msg.name then
    let key := pyStr msg.mmsi
    let cached := (alookup st1.mmsi_name_lookup key).getD ""
    if cached != "" then (cached, st1)
    else
      let f := fetch_name_from_aishub env.aishub st1.lastCall now
      let stf := { st1 with
        lastCall := f.newLast,
        issuedLog := if f.issued then st1.issuedLog ++ [now]
                     else st1.issuedLog }
      match f.name with
      | some s =>
          if s != "" then
            (s, { stf with
              mmsi_name_lookup := aset stf.mmsi_name_lookup key s,
              saves := stf.saves + 1 })
          else ("Unknown", stf)
      | none => ("Unknown", stf)
  else ((msg.name.getD ""), st1)

/-- `on_message` (lines 182-293), restricted to the engine state and the
publish effect.  Returns the new state and the payload posted to Home
Assistant, or `none` when the message is dropped.  The branches mirror the
source: unconfigured topic, the `int` conversion of `IGNORE_TYPES` (whose
`ValueError` is swallowed by the blanket `except` at line 292), the ignore
check, throttling, the falsy-mmsi check, name resolution, the guarded
cache insertion of line 261, the window step, and the publish. -/
def on_message (cfg : Config) (env : Env) (st : EngineState) (msg : Msg)
    (now : Int) : EngineState × Option Publish :=
  if ¬ (msg.topic ∈ cfg.topics) then (st, none)
  else
    match parseIgnoreTypes cfg.ignoreTypesRaw with
    | none => (st, none)
    | some ignoreTypes =>
      if (match msg.type with
          | some t => ignoreTypes.contains t
          | none => false) then (st, none)
      else
        let thr := should_process_message cfg.rules st.throttle_tracker msg.mmsi msg.type now
        let st1 := { st with throttle_tracker := thr.2 }
        if ¬ thr.1 then (st1, none)
        else if ¬ truthyJ msg.mmsi then (st1, none)
        else
          let key := pyStr msg.mmsi
          let resolved := resolve_name env st1 msg now
          let name := resolved.1
          let st2 := resolved.2
          let st3 :=
            if name ≠ "Unknown" ∧ (alookup st2.mmsi_name_lookup key).isNone then
              { st2 with mmsi_name_lookup := aset st2.mmsi_name_lookup key name,
                         saves := st2.saves + 1 }
            else st2
          let r := record st3.mmsi_data msg.topic msg.mmsi now
          let st4 := { st3 with
            mmsi_data := r.data,
            saves := st3.saves + (if r.saved then 1 else 0) }
          (st4, some { topic := msg.topic, name := name, mmsi := msg.mmsi,
                       vesselCount := r.count })

/-! ### Concrete fixtures used by witnesses and counterexamples -/

/-- The empty initial engine state (fresh start, `LAST_AISHUB_CALL = 0`). -/
def stEmpty : EngineState :=
  { mmsi_data := [], mmsi_name_lookup := [], throttle_tracker := [],
    lastCall := 0, saves := 0, issuedLog := [] }

/-- A configuration with one topic, a numeric ignore list and no rules. -/
def cfgT : Config := { topics := ["T"], ignoreTypesRaw := ["99"], rules := [] }

/-- A throttle rule for mmsi 7, type 5, with the default 30 s interval. -/
def rule75 : Rule := { mmsi := .jint 7, type := some 5, interval := none }

/-- A configuration with a throttle rule for mmsi 0, type 5. -/
def cfgZeroRule : Config :=
  { topics := ["T"], ignoreTypesRaw := ["99"],
    rules := [{ mmsi := .jint 0, type := some 5, interval := none }] }

/-- A configuration whose raw ignore list is the default `"".split(",")`,
i.e. the single empty string. -/
def cfgDefaultIgnore : Config :=
  { topics := ["T"], ignoreTypesRaw := [""], rules := [] }

/-- A configuration with type 24 in the ignore list. -/
def cfgIgnore24 : Config :=
  { topics := ["T"], ignoreTypesRaw := ["24"], rules := [] }

/-- A message with no inline name fields, mmsi 7. -/
def msgBare7 : Msg :=
  { topic := "T", mmsi := .jint 7, shipname := none, name := none, type := none }

/-- A message with no inline name fields, mmsi 8. -/
def msgBare8 : Msg :=
  { topic := "T", mmsi := .jint 8, shipname := none, name := none, type := none }

/-- A message with no inline name fields, mmsi 42. -/
def msgBare42 : Msg :=
  { topic := "T", mmsi := .jint 42, shipname := none, name := none, type := none }

/-- A message carrying both a shipname and a name, mmsi 7. -/
def msgNamed7 : Msg :=
  { topic := "T", mmsi := .jint 7, shipname := some "X", name := some "Y",
    type := none }

/-- A message whose mmsi is the integer 0 (present but Python-falsy). -/
def msgZero : Msg :=
  { topic := "T", mmsi := .jint 0, shipname := none, name := none, type := some 5 }

/-- A message of type 24, mmsi 7. -/
def msgType24 : Msg :=
  { topic := "T", mmsi := .jint 7, shipname := none, name := none, type := some 24 }

/-- A message with no mmsi field at all (`data.get("mmsi")` is `None`). -/
def msgNoMmsi : Msg :=
  { topic := "T", mmsi := .jnull, shipname := none, name := none, type := none }

/-! ### Helper lemmas about the association-list model -/

theorem alookup_aset_self {α : Type} (l : List (String × α)) (k : String) (v : α) :
    alookup (aset l k v) k = some v := by
  induction l with
  | nil => simp [aset, alookup]
  | cons hd tl ih =>
      obtain ⟨k0, v0⟩ := hd
      by_cases h : k0 = k
      · simp [aset, alookup, h]
      · simp [aset, alookup, h, ih]

theorem alookup_aset_ne {α : Type} (l : List (String × α)) (k k0 : String) (v : α)
    (h : k0 ≠ k) : alookup (aset l k0 v) k = alookup l k := by
  induction l with
  | nil => simp [aset, alookup, h]
  | cons hd tl ih =>
      obtain ⟨k1, v1⟩ := hd
      by_cases h1 : k1 = k0
      · subst h1
        simp [aset, alookup, h]
      · simp [aset, alookup, h1, ih]

theorem length_filter_ne_iff {α : Type} (l : List α) (p : α → Bool) :
    (l.filter p).length ≠ l.length ↔ ∃ x ∈ l, p x = false := by
  induction l with
  | nil => simp
  | cons hd tl ih =>
      by_cases h : p hd
      · simp [List.filter, h, ih]
      · simp only [List.filter, h]
        constructor
        · intro _
          exact ⟨hd, List.mem_cons_self hd tl, by simpa using h⟩
        · intro _
          have hle := List.length_filter_le p tl
          simp only [List.length_cons]
          omega

theorem filter_eq_of_length_eq {α : Type} (l : List α) (p : α → Bool)
    (h : (l.filter p).length = l.length) : l.filter p = l :=
  (List.filter_sublist l).eq_of_length h

/-- If no throttle rule matches, the message is admitted and the tracker is
untouched. -/
theorem should_process_of_no_match (rules : List Rule) (tracker : List (String × Int))
    (mmsi : JVal) (ty : Option Int) (now : Int)
    (h : ∀ r ∈ rules, ruleMatches r mmsi ty = false) :
    should_process_message rules tracker mmsi ty now = (true, tracker) := by
  induction rules generalizing tracker with
  | nil => rfl
  | cons r rest ih =>
      have hr : ruleMatches r mmsi ty = false := h r (List.mem_cons_self r rest)
      simp only [should_process_message, hr, Bool.false_eq_true, if_false]
      exact ih tracker (fun r2 hr2 => h r2 (List.mem_cons_of_mem r hr2))

/-- C1 (amended): the window step of `on_message` calls `save_mmsi_data`
exactly when the eviction pass removed at least one entry, i.e. when some
pre-existing entry of the topic's window is 60 minutes old or older. -/
theorem c1_record_saves_iff_eviction (data : List (String × List (JVal × Int)))
    (topic : String) (mmsi : JVal) (now : Int) :
    (record data topic mmsi now).saved = true ↔
      ∃ p ∈ (alookup data topic).getD [], p.2 ≤ now - 3600 := by
  have key : (record data topic mmsi now).saved = true ↔
      (((alookup data topic).getD [] ++ [(mmsi, now)]).filter
        (fun e => now - 3600 < e.2)).length ≠
        ((alookup data topic).getD [] ++ [(mmsi, now)]).length := by
    simp only [record]
    split
    next h => exact iff_of_true rfl h
    next h => exact iff_of_false (by simp) h
  rw [key, length_filter_ne_iff]
  constructor
  · rintro ⟨x, hx, hpx⟩
    have hnot : ¬ (now - 3600 < x.2) := by simpa using hpx
    rcases List.mem_append.mp hx with hmem | hmem
    · exact ⟨x, hmem, by omega⟩
    · exfalso
      have hx2 : x = (mmsi, now) := by simpa using hmem
      rw [hx2] at hnot
      simp at hnot
  · rintro ⟨x, hx, hle⟩
    refine ⟨x, List.mem_append.mpr (Or.inl hx), ?_⟩
    simp only [decide_eq_false_iff_not]
    omega

/-- C1 (counterexample): a fully processed message (it is published) whose
append evicts nothing triggers no `save_mmsi_data` at all: the claim that
every successful record is followed by a save fails. -/
theorem c1_counterexample :
    ((on_message cfgT ⟨.netFail⟩
        { stEmpty with mmsi_name_lookup := [("7", "X")] } msgNamed7 100).2.isSome
      = true) ∧
    (on_message cfgT ⟨.netFail⟩
        { stEmpty with mmsi_name_lookup := [("7", "X")] } msgNamed7 100).1.saves
      = 0 := by
  decide

/-- C3 (counterexample): a lookup that is actually issued but fails before
its response is decoded (network error, timeout, bad status, undecodable
body) does not update `LAST_AISHUB_CALL`. -/
theorem c3_counterexample :
    (fetch_name_from_aishub .netFail 0 1000).issued = true ∧
    (fetch_name_from_aishub .netFail 0 1000).newLast ≠ 1000 := by
  decide

/-- C3 (amended): `LAST_AISHUB_CALL` is updated to `now` exactly when the
response is received and its JSON body decoded (line 106) — including
responses with an explicit error field or no usable name — and is left
unchanged when the request fails before decoding. -/
theorem c3_update_iff_decoded (lastCall now : Int) :
    ((fetch_name_from_aishub .netFail lastCall now).newLast = lastCall) ∧
    (∀ o : Option String,
      (fetch_name_from_aishub (.parsed o) lastCall now).issued = true →
      (fetch_name_from_aishub (.parsed o) lastCall now).newLast = now) := by
  constructor
  · by_cases hc : now - lastCall < 60 <;> simp [fetch_name_from_aishub, hc]
  · intro o h
    by_cases hc : now - lastCall < 60
    · simp [fetch_name_from_aishub, hc] at h
    · simp [fetch_name_from_aishub, hc]

/-- C3 witness: concrete instantiation of `c3_update_iff_decoded`. -/
theorem c3_witness :
    (fetch_name_from_aishub .netFail 5 1000).newLast = 5 ∧
    (fetch_name_from_aishub (.parsed (some "POLARIS")) 5 1000).newLast = 1000 :=
  ⟨(c3_update_iff_decoded 5 1000).1,
   (c3_update_iff_decoded 5 1000).2 (some "POLARIS") (by decide)⟩

/-- C2 (counterexample): two bare messages one second apart, both of whose
lookups fail at the network level, cause two AISHub requests to be issued
one second apart — the cooldown does not bound issued calls when lookups
fail. -/
theorem c2_counterexample :
    ((on_message cfgT ⟨.netFail⟩
        (on_message cfgT ⟨.netFail⟩ stEmpty msgBare7 1000).1
        msgBare8 1001).1.issuedLog = [1000, 1001]) ∧
    ((1001 : Int) - 1000 < 60) := by
  decide

/-- C2 (amended): an issued call whose response is decoded advances
`LAST_AISHUB_CALL` to its own time, so the next issued call comes at least
60 seconds later; only calls failing before the response is decoded escape
the cooldown. -/
theorem c2_issued_gap_after_decoded (res1 res2 : AishubResult)
    (lastCall t1 t2 : Int) (o : Option String)
    (h1 : (fetch_name_from_aishub res1 lastCall t1).issued = true)
    (hp : res1 = .parsed o)
    (h2 : (fetch_name_from_aishub res2
            (fetch_name_from_aishub res1 lastCall t1).newLast t2).issued = true) :
    60 ≤ t2 - t1 := by
  subst hp
  by_cases hc : t1 - lastCall < 60
  · simp [fetch_name_from_aishub, hc] at h1
  · simp only [fetch_name_from_aishub, hc, if_false] at h2
    by_cases hc2 : t2 - t1 < 60
    · simp [hc2] at h2
    · omega

/-- C2 witness: concrete instantiation of `c2_issued_gap_after_decoded`. -/
theorem c2_witness : 60 ≤ (60 : Int) - 0 :=
  c2_issued_gap_after_decoded (.parsed none) .netFail (-100) 0 60 none
    (by decide) rfl (by decide)

/-- C5 (counterexample): with sightings (A, t0), (A, t0+10min), (B, t0+61min)
on one topic, the record call at t0+61min does not return distinct count 1. -/
theorem c5_counterexample :
    (record (record (record [] "T" (.jstr "A") 0).data "T" (.jstr "A") 600).data
      "T" (.jstr "B") 3660).count ≠ 1 := by
  decide

/-- C5 (amended): the record call at t0+61min returns distinct count 2:
only the first A entry (at t0, exactly 61 minutes old) is evicted, while
(A, t0+10min) is 51 minutes old and retained together with B. -/
theorem c5_scenario_count_two :
    (record (record (record [] "T" (.jstr "A") 0).data "T" (.jstr "A") 600).data
      "T" (.jstr "B") 3660).count = 2 ∧
    alookup (record (record (record [] "T" (.jstr "A") 0).data
      "T" (.jstr "A") 600).data "T" (.jstr "B") 3660).data "T"
      = some [(.jstr "A", 600), (.jstr "B", 3660)] := by
  decide

/-- C6 (confirmed): the record step keeps exactly the appended entries with
`timestamp > now - 60min` (an entry exactly 60 minutes old is evicted, a
strictly younger one retained), so after any record call every retained
entry of the topic is strictly less than 60 minutes old. -/
theorem c6_eviction_exact (data : List (String × List (JVal × Int)))
    (topic : String) (mmsi : JVal) (now : Int) :
    alookup (record data topic mmsi now).data topic =
      some (((alookup data topic).getD [] ++ [(mmsi, now)]).filter
        (fun e => now - 3600 < e.2))
    ∧ ∀ e ∈ (alookup (record data topic mmsi now).data topic).getD [],
        now - e.2 < 3600 := by
  have h1 : alookup (record data topic mmsi now).data topic =
      some (((alookup data topic).getD [] ++ [(mmsi, now)]).filter
        (fun e => now - 3600 < e.2)) := by
    simp only [record]
    split
    next h => exact alookup_aset_self data topic _
    next h =>
      rw [alookup_aset_self]
      rw [filter_eq_of_length_eq _ _ (not_ne_iff.mp h)]
  refine ⟨h1, ?_⟩
  intro e he
  rw [h1] at he
  simp only [Option.getD_some] at he
  have hkeep := (List.mem_filter.mp he).2
  simp only [decide_eq_true_eq] at hkeep
  omega

/-- C6 witness: concrete instantiation of `c6_eviction_exact`: an entry
exactly 61 minutes old is evicted, the fresh one retained. -/
theorem c6_witness :
    alookup (record [("T", [(.jstr "A", 0)])] "T" (.jstr "B") 3700).data "T"
      = some [(.jstr "B", 3700)] ∧ (3700 : Int) - 3700 < 3600 :=
  ⟨((c6_eviction_exact [("T", [(.jstr "A", 0)])] "T" (.jstr "B") 3700).1).trans
      (by decide),
   (c6_eviction_exact [("T", [(.jstr "A", 0)])] "T" (.jstr "B") 3700).2
      ((.jstr "B"), 3700) (by decide)⟩

/-- C4 (counterexample): with two copies of the same rule, the first copy
stamps the shared tracker key and the second then denies the message: the
message is suppressed yet `ThrottleState` was mutated. -/
theorem c4_counterexample :
    (should_process_message [rule75, rule75] [] (.jint 7) (some 5) 100)
      = (false, [("7_5", 100)]) ∧
    ([("7_5", 100)] : List (String × Int)) ≠ [] := by
  decide

/-- C4 (amended): when at most one rule matches the sighting, a denial
leaves the tracker unchanged; and whenever the message is admitted and at
least one rule matches, the shared key (identifier, type) is stamped with
`now`.  (With several matching rules, a denial at a later rule leaves the
earlier rules' stamp in place — all matching rules share one key.) -/
theorem c4_throttle_state (rules : List Rule) (tracker : List (String × Int))
    (mmsi : JVal) (ty : Option Int) (now : Int) :
    ((rules.filter (fun r => ruleMatches r mmsi ty)).length ≤ 1 →
      (should_process_message rules tracker mmsi ty now).1 = false →
      (should_process_message rules tracker mmsi ty now).2 = tracker)
    ∧ ((should_process_message rules tracker mmsi ty now).1 = true →
      (∃ r ∈ rules, ruleMatches r mmsi ty = true) →
      alookup (should_process_message rules tracker mmsi ty now).2
        (throttleKey mmsi ty) = some now) := by
  induction rules generalizing tracker with
  | nil =>
      constructor
      · intro _ _
        rfl
      · rintro _ ⟨r, hr, _⟩
        exact absurd hr (List.not_mem_nil r)
  | cons r rest ih =>
      by_cases hm : ruleMatches r mmsi ty
      · by_cases hd : now - ((alookup tracker (throttleKey mmsi ty)).getD 0)
            < r.interval.getD 30
        · constructor
          · intro _ _
            simp only [should_process_message, hm, if_true, hd]
          · intro htrue _
            simp only [should_process_message, hm, if_true, hd, if_true] at htrue
            exact absurd htrue (by simp)
        · have hstep : should_process_message (r :: rest) tracker mmsi ty now
              = should_process_message rest
                  (aset tracker (throttleKey mmsi ty) now) mmsi ty now := by
            simp only [should_process_message, hm, if_true, hd, if_false]
          constructor
          · intro hlen hfalse
            simp only [List.filter_cons, hm, if_true, List.length_cons] at hlen
            have hfil : (rest.filter (fun r2 => ruleMatches r2 mmsi ty)) = [] := by
              rw [← List.length_eq_zero]
              omega
            have hnomatch : ∀ r2 ∈ rest, ruleMatches r2 mmsi ty = false := by
              intro r2 h2
              by_contra hcon
              have hmem2 : r2 ∈ rest.filter (fun r2 => ruleMatches r2 mmsi ty) :=
                List.mem_filter.mpr ⟨h2, by simpa using hcon⟩
              rw [hfil] at hmem2
              exact absurd hmem2 (List.not_mem_nil r2)
            rw [hstep, should_process_of_no_match _ _ _ _ _ hnomatch] at hfalse
            simp at hfalse
          · intro htrue _
            rw [hstep] at htrue ⊢
            by_cases hrm : ∃ r2 ∈ rest, ruleMatches r2 mmsi ty = true
            · exact (ih _).2 htrue hrm
            · push_neg at hrm
              have hnomatch : ∀ r2 ∈ rest, ruleMatches r2 mmsi ty = false := by
                intro r2 h2
                simpa using hrm r2 h2
              rw [should_process_of_no_match _ _ _ _ _ hnomatch]
              exact alookup_aset_self _ _ _
      · have hm' : ruleMatches r mmsi ty = false := by simpa using hm
        have hstep : should_process_message (r :: rest) tracker mmsi ty now
            = should_process_message rest tracker mmsi ty now := by
          simp only [should_process_message, hm', Bool.false_eq_true, if_false]
        constructor
        · intro hlen hfalse
          rw [hstep] at hfalse ⊢
          refine (ih tracker).1 ?_ hfalse
          simpa only [List.filter_cons, hm', Bool.false_eq_true, if_false] using hlen
        · intro htrue hex
          rw [hstep] at htrue ⊢
          rcases hex with ⟨r2, hr2, hmr2⟩
          rcases List.mem_cons.mp hr2 with heq | hr2
          · rw [heq, hm'] at hmr2
            exact absurd hmr2 (by simp)
          · exact (ih tracker).2 htrue ⟨r2, hr2, hmr2⟩

/-- C4 witness: concrete instantiations of `c4_throttle_state`: a single
matching rule denying leaves the tracker as it was; an admitted message
stamps the shared key with `now`. -/
theorem c4_witness :
    (should_process_message [rule75] [(throttleKey (.jint 7) (some 5), 95)]
      (.jint 7) (some 5) 100).2 = [(throttleKey (.jint 7) (some 5), 95)] ∧
    alookup (should_process_message [rule75] [] (.jint 7) (some 5) 100).2
      (throttleKey (.jint 7) (some 5)) = some 100 :=
  ⟨(c4_throttle_state [rule75] [(throttleKey (.jint 7) (some 5), 95)]
      (.jint 7) (some 5) 100).1 (by decide) (by decide),
   (c4_throttle_state [rule75] [] (.jint 7) (some 5) 100).2 (by decide)
      ⟨rule75, by decide, by decide⟩⟩

/-- C10 (confirmed): when any entry of the raw ignore-types configuration
fails integer conversion — `int` raises and the blanket handler swallows
the error — the message is dropped with no state change and no publish. -/
theorem c10_bad_ignore_config_drops_all (cfg : Config) (env : Env)
    (st : EngineState) (msg : Msg) (now : Int)
    (h : parseIgnoreTypes cfg.ignoreTypesRaw = none) :
    on_message cfg env st msg now = (st, none) := by
  unfold on_message
  split
  · rfl
  · rw [h]

/-- C10 witness: the default configuration (`IGNORE_TYPES` unset gives
`"".split(",") = [""]`) fails conversion, so a well-formed message is
silently dropped. -/
theorem c10_witness :
    parseIgnoreTypes cfgDefaultIgnore.ignoreTypesRaw = none ∧
    on_message cfgDefaultIgnore ⟨.netFail⟩ stEmpty msgBare7 100 = (stEmpty, none) :=
  ⟨by decide,
   c10_bad_ignore_config_drops_all cfgDefaultIgnore ⟨.netFail⟩ stEmpty msgBare7 100
     (by decide)⟩

/-- C8 (confirmed): a message whose type is in the (successfully converted)
ignore set is dropped before throttling: the returned state is exactly the
input state — window, cache, throttle tracker, rate-limit timestamp, saves
and issued calls all unchanged — and nothing is published. -/
theorem c8_ignored_type_no_effect (cfg : Config) (env : Env) (st : EngineState)
    (msg : Msg) (now : Int) (L : List Int) (t : Int)
    (hparse : parseIgnoreTypes cfg.ignoreTypesRaw = some L)
    (htype : msg.type = some t)
    (hmem : L.contains t = true) :
    on_message cfg env st msg now = (st, none) := by
  simp only [on_message, hparse, htype, hmem, if_true, ite_self]

/-- C8 witness: concrete instantiation of `c8_ignored_type_no_effect` with
type 24 in the ignore set. -/
theorem c8_witness :
    on_message cfgIgnore24 ⟨.netFail⟩ stEmpty msgType24 100 = (stEmpty, none) :=
  c8_ignored_type_no_effect cfgIgnore24 ⟨.netFail⟩ stEmpty msgType24 100 [24] 24
    (by decide) rfl (by decide)

/-- C9 (counterexample): a message that carries the identifier value 0 is
dropped by the `if not mmsi` check, and because that check runs after
throttling, the throttle tracker has already been stamped — a drop for a
"missing" identifier with a state change, on a message whose identifier is
present. -/
theorem c9_counterexample :
    (on_message cfgZeroRule ⟨.netFail⟩ stEmpty msgZero 100).2 = none ∧
    (on_message cfgZeroRule ⟨.netFail⟩ stEmpty msgZero 100).1.throttle_tracker
      = [("0_5", 100)] ∧
    stEmpty.throttle_tracker = [] := by
  decide

/-- C9 (amended): a message whose identifier is Python-falsy (absent, null,
zero or empty) is dropped unpublished, leaving window, cache, rate-limit
timestamp, saves and issued calls unchanged; only the throttle tracker may
already have been updated, because the identifier check runs after
throttling. -/
theorem c9_falsy_mmsi_drop (cfg : Config) (env : Env) (st : EngineState)
    (msg : Msg) (now : Int) (h : truthyJ msg.mmsi = false) :
    (on_message cfg env st msg now).2 = none ∧
    (on_message cfg env st msg now).1.mmsi_data = st.mmsi_data ∧
    (on_message cfg env st msg now).1.mmsi_name_lookup = st.mmsi_name_lookup ∧
    (on_message cfg env st msg now).1.lastCall = st.lastCall ∧
    (on_message cfg env st msg now).1.saves = st.saves ∧
    (on_message cfg env st msg now).1.issuedLog = st.issuedLog := by
  simp only [on_message]
  split
  · exact ⟨rfl, rfl, rfl, rfl, rfl, rfl⟩
  · split
    · exact ⟨rfl, rfl, rfl, rfl, rfl, rfl⟩
    · split
      · exact ⟨rfl, rfl, rfl, rfl, rfl, rfl⟩
      · split
        · exact ⟨rfl, rfl, rfl, rfl, rfl, rfl⟩
        · split
          · exact ⟨rfl, rfl, rfl, rfl, rfl, rfl⟩
          · next hcon => simp [h] at hcon

/-- C9 witness: concrete instantiation of `c9_falsy_mmsi_drop` on a message
with no mmsi field. -/
theorem c9_witness :
    (on_message cfgT ⟨.netFail⟩ stEmpty msgNoMmsi 100).2 = none ∧
    (on_message cfgT ⟨.netFail⟩ stEmpty msgNoMmsi 100).1.mmsi_data
      = stEmpty.mmsi_data ∧
    (on_message cfgT ⟨.netFail⟩ stEmpty msgNoMmsi 100).1.mmsi_name_lookup
      = stEmpty.mmsi_name_lookup ∧
    (on_message cfgT ⟨.netFail⟩ stEmpty msgNoMmsi 100).1.lastCall
      = stEmpty.lastCall ∧
    (on_message cfgT ⟨.netFail⟩ stEmpty msgNoMmsi 100).1.saves
      = stEmpty.saves ∧
    (on_message cfgT ⟨.netFail⟩ stEmpty msgNoMmsi 100).1.issuedLog
      = stEmpty.issuedLog :=
  c9_falsy_mmsi_drop cfgT ⟨.netFail⟩ stEmpty msgNoMmsi 100 (by decide)

/-- C7 (counterexample): a successful external lookup whose returned name
is the literal string "Unknown" is written into the cache by line 251 —
the sentinel value can enter the name cache. -/
theorem c7_counterexample :
    alookup (on_message cfgT ⟨.parsed (some "Unknown")⟩
      { stEmpty with lastCall := -100 } msgBare42 0).1.mmsi_name_lookup "42"
      = some "Unknown" := by
  decide

/-- Helper for C7: the name-resolution step never overwrites an existing
nonempty cache entry: the fetch branch only runs when the cache value for
the message key is absent or empty, and it writes only that key. -/
theorem resolve_name_preserves_cache (env : Env) (st1 : EngineState) (msg : Msg)
    (now : Int) (k v : String)
    (hk : alookup st1.mmsi_name_lookup k = some v) (hv : v ≠ "") :
    alookup (resolve_name env st1 msg now).2.mmsi_name_lookup k = some v := by
  simp only [resolve_name]
  split
  · exact hk
  · split
    · exact hk
    · split
      · split
        · exact hk
        · next hc =>
            split
            · next s heq =>
                split
                · by_cases hkey : k = pyStr msg.mmsi
                  · exfalso
                    rw [← hkey, hk] at hc
                    simp at hc
                    exact hv hc
                  · rw [alookup_aset_ne _ _ _ _ (fun hh => hkey hh.symm)]
                    exact hk
                · exact hk
            · exact hk
      · exact hk

/-- Helper for C7: when a message carries no inline name, the identifier is
uncached, and the lookup yields no usable name, resolution falls back to
"Unknown" and the name-resolution step writes nothing to the cache. -/
theorem resolve_name_fallback_no_write (env : Env) (st1 : EngineState)
    (msg : Msg) (now : Int)
    (hs : truthyS msg.shipname = false) (hn : truthyS msg.name = false)
    (hmiss : alookup st1.mmsi_name_lookup (pyStr msg.mmsi) = none)
    (hf : (fetch_name_from_aishub env.aishub st1.lastCall now).name = none ∨
          (fetch_name_from_aishub env.aishub st1.lastCall now).name = some "") :
    (resolve_name env st1 msg now).1 = "Unknown" ∧
    (resolve_name env st1 msg now).2.mmsi_name_lookup = st1.mmsi_name_lookup := by
  simp only [resolve_name, hs, hn, hmiss, Bool.false_and, Bool.and_false,
    Bool.not_false, Bool.true_and, Bool.false_eq_true, if_false, if_true,
    Option.getD_none]
  rcases hf with hf | hf
  · simp [hf]
  · simp [hf]

/-- C7 (amended): a fallback resolution never writes to the cache — for a
sighting with no inline name, an uncached identifier, and a lookup yielding
no usable name, the cache is left exactly as it was and any published name
is the sentinel — and once the cache holds a nonempty name for an
identifier, no later message processing overwrites or removes it.  (The
unamended "the sentinel is never written" fails only through line 251,
which caches a successfully fetched name even when that name is literally
"Unknown".) -/
theorem c7_cache_invariants (cfg : Config) (env : Env) (st : EngineState)
    (msg : Msg) (now : Int) :
    ((truthyS msg.shipname = false) → (truthyS msg.name = false) →
      alookup st.mmsi_name_lookup (pyStr msg.mmsi) = none →
      ((fetch_name_from_aishub env.aishub st.lastCall now).name = none ∨
       (fetch_name_from_aishub env.aishub st.lastCall now).name = some "") →
      (on_message cfg env st msg now).1.mmsi_name_lookup = st.mmsi_name_lookup ∧
      (∀ p, (on_message cfg env st msg now).2 = some p → p.name = "Unknown"))
    ∧ (∀ k v, alookup st.mmsi_name_lookup k = some v → v ≠ "" →
        alookup (on_message cfg env st msg now).1.mmsi_name_lookup k = some v) := by
  constructor
  · intro hs hn hmiss hf
    simp only [on_message]
    split
    · exact ⟨rfl, fun p hp => nomatch hp⟩
    · split
      · exact ⟨rfl, fun p hp => nomatch hp⟩
      · split
        · exact ⟨rfl, fun p hp => nomatch hp⟩
        · split
          · exact ⟨rfl, fun p hp => nomatch hp⟩
          · split
            · exact ⟨rfl, fun p hp => nomatch hp⟩
            · have hres := resolve_name_fallback_no_write env
                { st with throttle_tracker :=
                    (should_process_message cfg.rules st.throttle_tracker
                      msg.mmsi msg.type now).2 } msg now hs hn hmiss hf
              split
              · next hcond =>
                  exact absurd hres.1 hcond.1
              · refine ⟨hres.2, fun p hp => ?_⟩
                have hp2 := (Option.some.injEq _ _).mp hp
                rw [← hp2]
                exact hres.1
  · intro k v hk hv
    simp only [on_message]
    split
    · exact hk
    · split
      · exact hk
      · split
        · exact hk
        · split
          · exact hk
          · split
            · exact hk
            · have hpres := resolve_name_preserves_cache env
                { st with throttle_tracker :=
                    (should_process_message cfg.rules st.throttle_tracker
                      msg.mmsi msg.type now).2 } msg now k v hk hv
              split
              · next hcond =>
                  by_cases hkey : k = pyStr msg.mmsi
                  · exfalso
                    rw [← hkey] at hcond
                    rw [hpres] at hcond
                    simp at hcond
                  · rw [alookup_aset_ne _ _ _ _ (fun hh => hkey hh.symm)]
                    exact hpres
              · exact hpres

/-- C7 witness: a failed lookup for an uncached identifier leaves the cache
empty, and a cached name survives a later message for the same identifier
whose lookup would have failed. -/
theorem c7_witness :
    (on_message cfgT ⟨.netFail⟩ { stEmpty with lastCall := -100 }
      msgBare42 0).1.mmsi_name_lookup = [] ∧
    alookup (on_message cfgT ⟨.netFail⟩
      { stEmpty with mmsi_name_lookup := [("7", "X")] } msgBare7 1000).1.mmsi_name_lookup
      "7" = some "X" :=
  ⟨((c7_cache_invariants cfgT ⟨.netFail⟩ { stEmpty with lastCall := -100 }
      msgBare42 0).1 (by decide) (by decide) (by decide) (Or.inl (by decide))).1,
   (c7_cache_invariants cfgT ⟨.netFail⟩
      { stEmpty with mmsi_name_lookup := [("7", "X")] } msgBare7 1000).2 "7" "X"
      (by decide) (by decide)⟩
